import Mathlib

/-!
Verification of the monad-x402 payment-gating layer: a shallow embedding
of the repository's TypeScript sources — the bot / AI-crawler user-agent
classifiers, the X-PAYMENT header codec, the facilitator verify and
settle endpoints, and the payment middleware — together with theorems
about the embedded operations.

Conventions of the embedding:
- JavaScript strings are Lean `String`s; `toLowerCase` is `String.toLower`
  (the strings compared case-insensitively in this repository are ASCII,
  where the two functions agree).
- Nullable values (`string | null`, optional fields) are `Option`s; a
  JavaScript falsiness test on a string-or-null value is the test
  "none, or the empty string".
- `bigint` transaction values are `Nat` (they are nonnegative wei).
- Calls into external collaborators (ethers.js parsing and address
  validation, the chain RPC for broadcast and receipt wait) are passed in
  as explicit function or outcome parameters, so each endpoint is a pure
  function of its request plus the collaborator behaviour.
-/

namespace X402

/-! ## String primitives

The sources use `String.prototype.includes` (case-sensitive substring
test), `startsWith`, `toLowerCase`, and case-insensitive regex literals.
Every regex in the bot pattern tables is a literal with no metacharacters,
so `/pat/i.test(ua)` is a case-blind substring test. -/

/-- Is the first list a leading segment of the second? -/
def lpre : List Char → List Char → Bool
  | [], _ => true
  | _ :: _, [] => false
  | a :: as, b :: bs => a == b && lpre as bs

/-- Is `pat` a contiguous segment of the second list?
Models `String.prototype.includes` at the character-list level. -/
def lsub (pat : List Char) : List Char → Bool
  | [] => lpre pat []
  | s@(_ :: rest) => lpre pat s || lsub pat rest

/-- Models `hay.includes(pat)` — case-sensitive substring test. -/
def containsCS (hay pat : String) : Bool :=
  lsub pat.data hay.data

/-- Models `toLowerCase`, character by character. -/
def lowerStr (s : String) : String := String.mk (s.data.map Char.toLower)

/-- Models `/pat/i.test(hay)` for a metacharacter-free pattern literal:
a case-insensitive substring test. -/
def containsCI (hay pat : String) : Bool :=
  lsub (lowerStr pat).data (lowerStr hay).data

/-- Models `s.startsWith(pre)`. -/
def strStartsWith (s pre : String) : Bool :=
  lpre pre.data s.data

/-! ## Bot classifier (`bot-protection.ts`) -/

/-- The `BOT_PATTERNS` table: each source regex `/lit/i` is recorded as its
literal, tested case-insensitively. -/
def BOT_PATTERNS : List String :=
  ["bot", "crawler", "spider", "crawling",
   "googlebot", "bingbot", "slurp", "duckduckbot", "baiduspider",
   "yandexbot", "sogou", "exabot", "facebot", "ia_archiver",
   "GPTBot", "ChatGPT", "Claude", "Google-Extended", "anthropic",
   "PerplexityBot", "CCBot", "Bytespider",
   "scrapy", "wget", "curl", "httpie", "python-requests",
   "go-http-client", "java", "okhttp", "axios", "node-fetch",
   "Screaming Frog", "Semrush", "Ahrefs", "Majestic", "Moz",
   "facebookexternalhit", "Twitterbot", "LinkedInBot", "Slackbot",
   "TelegramBot", "WhatsApp", "Discordbot",
   "HeadlessChrome", "PhantomJS", "Selenium", "Puppeteer", "Playwright"]

/-- The request headers read by the behavioural heuristics
(`request.headers.get(...)` returns `string | null`). The referer is read
by the source but not used in any decision. -/
structure ReqHeaders where
  accept : Option String
  acceptLanguage : Option String
  acceptEncoding : Option String
  referer : Option String
deriving DecidableEq, Repr

/-- JavaScript falsiness of a `string | null` value. -/
def falsyStr (o : Option String) : Bool :=
  o.getD "" == ""

/-- The source's `hasNoJavaScript`: the accept header (defaulted to the empty string)
contains neither an HTML nor an image media type. -/
def hasNoJavaScript (r : ReqHeaders) : Bool :=
  let acceptHeader := r.accept.getD ""
  let hasHtmlAccept := containsCS acceptHeader "text/html"
  let hasImageAccept := containsCS acceptHeader "image/"
  !hasHtmlAccept && !hasImageAccept

/-- The source's `hasSuspiciousHeaders`: accept-language or accept-encoding is absent
(or empty). -/
def hasSuspiciousHeaders (r : ReqHeaders) : Bool :=
  falsyStr r.acceptLanguage || falsyStr r.acceptEncoding

/-- The source's `isBot(userAgent, request?)`: empty user agent is a bot; otherwise any
pattern match is a bot; otherwise, when a request is supplied, the two
behavioural heuristics may flag a bot; otherwise not a bot. -/
def isBot (userAgent : String) (request : Option ReqHeaders) : Bool :=
  if userAgent == "" then true
  else if BOT_PATTERNS.any (fun p => containsCI userAgent p) then true
  else
    match request with
    | some r =>
      if hasNoJavaScript r then true
      else if hasSuspiciousHeaders r then true
      else false
    | none => false

/-! ## AI crawler classifier (`ai-crawler.ts`) -/

/-- The `AI_CRAWLER_PATTERNS` table, literals of its case-insensitive
regexes. -/
def AI_CRAWLER_PATTERNS : List String :=
  ["GPTBot", "ChatGPT-User", "Claude-Web", "ClaudeBot", "Google-Extended",
   "anthropic-ai", "cohere-ai", "PerplexityBot", "Omgilibot", "FacebookBot",
   "Applebot-Extended", "Bytespider", "CCBot", "anthropic", "AI2Bot",
   "YouBot"]

/-- The source's `isAICrawler(userAgent)`: an empty user agent is not an AI crawler;
otherwise any pattern match. -/
def isAICrawler (userAgent : String) : Bool :=
  if userAgent == "" then false
  else AI_CRAWLER_PATTERNS.any (fun p => containsCI userAgent p)

/-! ## Protocol constants and data model (`x402-protocol-types.ts`) -/

def X402_VERSION : Nat := 1

def MONAD_SCHEME : String := "evm-transfer"

def MONAD_MAINNET : String := "monad-mainnet"

def MONAD_TESTNET : String := "monad-testnet"

/-- PaymentRequirements. `description` and `mimeType` are built by the
middleware from optional route configuration, so they are `Option`s here;
`outputSchema` and `extra` are never read by any embedded operation and
are omitted. -/
structure PaymentRequirements where
  scheme : String
  network : String
  maxAmountRequired : String
  resource : String
  description : Option String
  mimeType : Option String
  payTo : String
  maxTimeoutSeconds : Option Nat
deriving DecidableEq, Repr

/-- The scheme-dependent payload of a PaymentPayload. An absent
`signedTransaction` field is modelled as the empty string (both are falsy
where the sources test it). -/
structure TxPayloadBody where
  signedTransaction : String
deriving DecidableEq, Repr

/-- PaymentPayload, the decoded content of the X-PAYMENT header. -/
structure PaymentPayload where
  x402Version : Nat
  scheme : String
  network : String
  payload : TxPayloadBody
deriving DecidableEq, Repr

/-- Projection of `ethers.Transaction` onto the fields the facilitator
reads. `sender` and `toAddr` are the source's `tx.from` and `tx.to`
(`from` and `to` are Lean keywords); both are nullable. `value` is the
nonnegative bigint in wei. -/
structure ParsedTx where
  sender : Option String
  toAddr : Option String
  value : Nat
  chainId : Nat
deriving DecidableEq, Repr

/-! ## Decimal printing

JavaScript prints the numbers appearing in this protocol (a nonnegative
protocol version, a nonnegative bigint wei value) in plain decimal. -/

/-- Decimal digit character. -/
def digitCh (n : Nat) : Char := Char.ofNat (48 + n)

/-- Fueled most-significant-first decimal digit accumulator. -/
def natCharsAux : Nat → Nat → List Char → List Char
  | 0, _, acc => acc
  | fuel + 1, n, acc =>
    if n < 10 then digitCh n :: acc
    else natCharsAux fuel (n / 10) (digitCh (n % 10) :: acc)

/-- Decimal representation of a natural number. -/
def natChars (n : Nat) : List Char := natCharsAux (n + 1) n []

/-- Fuel-free form of `natChars`, convenient for induction. -/
def natCharsCore (n : Nat) : List Char :=
  if n < 10 then [digitCh n]
  else natCharsCore (n / 10) ++ [digitCh (n % 10)]
decreasing_by exact Nat.div_lt_self (by omega) (by omega)

/-- Decimal representation as a string (`String(n)` / `bigint.toString()`). -/
def natStr (n : Nat) : String := String.mk (natChars n)

/-! ## JSON string escaping (the `JSON.stringify` quote routine) -/

/-- Lowercase hexadecimal digit character. -/
def hexCh (n : Nat) : Char :=
  if n < 10 then Char.ofNat (48 + n) else Char.ofNat (87 + n)

/-- How `JSON.stringify` emits one character inside a string literal:
quote and backslash get two-character escapes, the five named control
characters get their short escapes, other control characters get
`\u00XX`, and everything else is emitted verbatim. -/
def escapeChar (c : Char) : List Char :=
  if c == '"' then ['\\', '"']
  else if c == '\\' then ['\\', '\\']
  else if c == '\x08' then ['\\', 'b']
  else if c == '\t' then ['\\', 't']
  else if c == '\n' then ['\\', 'n']
  else if c == '\x0c' then ['\\', 'f']
  else if c == '\r' then ['\\', 'r']
  else if c.toNat < 32 then
    ['\\', 'u', '0', '0', hexCh (c.toNat / 16), hexCh (c.toNat % 16)]
  else [c]

/-- Escape a whole string body. -/
def escapeStr : List Char → List Char
  | [] => []
  | c :: rest => escapeChar c ++ escapeStr rest

/-- Models `JSON.stringify` of the payment payload object literal built in
x402-axios step 7: fixed key order (insertion order of the object
literal), no whitespace. -/
def serializePayload (p : PaymentPayload) : List Char :=
  "\x7b\"x402Version\":".data ++ natChars p.x402Version
    ++ ",\"scheme\":\"".data ++ escapeStr p.scheme.data
    ++ "\",\"network\":\"".data ++ escapeStr p.network.data
    ++ "\",\"payload\":\x7b\"signedTransaction\":\"".data
    ++ escapeStr p.payload.signedTransaction.data
    ++ "\"\x7d\x7d".data

/-! ## UTF-8 (`Buffer.from(string)` / `buffer.toString('utf-8')`) -/

/-- UTF-8 encoding of one Unicode scalar value. -/
def utf8EncodeChar (c : Char) : List Nat :=
  if c.toNat < 128 then [c.toNat]
  else if c.toNat < 2048 then [192 + c.toNat / 64, 128 + c.toNat % 64]
  else if c.toNat < 65536 then
    [224 + c.toNat / 4096, 128 + c.toNat / 64 % 64, 128 + c.toNat % 64]
  else
    [240 + c.toNat / 262144, 128 + c.toNat / 4096 % 64,
     128 + c.toNat / 64 % 64, 128 + c.toNat % 64]

/-- UTF-8 encoding of a character list, as bytes (each < 256). -/
def utf8Encode : List Char → List Nat
  | [] => []
  | c :: rest => utf8EncodeChar c ++ utf8Encode rest

/-- Consume `k` continuation bytes (each in `[128, 192)`), extending the
accumulated scalar value six bits at a time. -/
def takeCont : Nat → Nat → List Nat → Option (Nat × List Nat)
  | 0, acc, l => some (acc, l)
  | k + 1, acc, b :: l =>
    if 128 ≤ b ∧ b < 192 then takeCont k (acc * 64 + (b - 128)) l else none
  | _ + 1, _, [] => none

/-- Fueled UTF-8 decoder body; the fuel only bounds recursion depth and
one unit per decoded character always suffices. -/
def utf8DecodeAux : Nat → List Nat → Option (List Char)
  | _, [] => some []
  | 0, _ :: _ => none
  | fuel + 1, b :: rest =>
    if b < 128 then (utf8DecodeAux fuel rest).map (fun cs => Char.ofNat b :: cs)
    else if b < 192 then none
    else if b < 224 then
      (takeCont 1 (b - 192) rest).bind fun p =>
        (utf8DecodeAux fuel p.2).map (fun cs => Char.ofNat p.1 :: cs)
    else if b < 240 then
      (takeCont 2 (b - 224) rest).bind fun p =>
        (utf8DecodeAux fuel p.2).map (fun cs => Char.ofNat p.1 :: cs)
    else if b < 248 then
      (takeCont 3 (b - 240) rest).bind fun p =>
        (utf8DecodeAux fuel p.2).map (fun cs => Char.ofNat p.1 :: cs)
    else none

/-- UTF-8 decoding. Strict: malformed sequences yield `none`, where
Node's decoder would substitute U+FFFD; the two agree on every output of
`utf8Encode`, which is all the embedding evaluates it on. -/
def utf8Decode (bs : List Nat) : Option (List Char) :=
  utf8DecodeAux bs.length bs

/-! ## Base64 (`buffer.toString('base64')` / `Buffer.from(s, 'base64')`) -/

/-- The standard base64 alphabet. -/
def b64Alphabet : List Char :=
  "ABCDEFGHIJKLMNOPQRSTUVWXYZabcdefghijklmnopqrstuvwxyz0123456789+/".data

/-- Character for a 6-bit group. -/
def b64Ch (n : Nat) : Char := b64Alphabet.getD n 'A'

/-- Position of a character in the alphabet. -/
def b64IdxAux (c : Char) : List Char → Nat → Option Nat
  | [], _ => none
  | a :: rest, i => if a == c then some i else b64IdxAux c rest (i + 1)

/-- Six-bit value of an alphabet character. -/
def b64Idx (c : Char) : Option Nat := b64IdxAux c b64Alphabet 0

/-- Base64 encoding of a byte list, with `=` padding, as Node's
`buffer.toString('base64')` produces. -/
def b64EncodeBytes : List Nat → List Char
  | [] => []
  | [a] => [b64Ch (a / 4), b64Ch (a % 4 * 16), '=', '=']
  | [a, b] => [b64Ch (a / 4), b64Ch (a % 4 * 16 + b / 16), b64Ch (b % 16 * 4), '=']
  | a :: b :: c :: rest =>
    b64Ch (a / 4) :: b64Ch (a % 4 * 16 + b / 16)
      :: b64Ch (b % 16 * 4 + c / 64) :: b64Ch (c % 64) :: b64EncodeBytes rest

/-- Base64 decoding. Strict: non-alphabet characters, bad lengths or bad
padding yield `none`, where Node's decoder silently skips; the two agree
on every output of `b64EncodeBytes`, which is all the embedding evaluates
it on. -/
def b64DecodeBytes : List Char → Option (List Nat)
  | [] => some []
  | c1 :: c2 :: c3 :: c4 :: rest =>
    match b64Idx c1, b64Idx c2 with
    | some a, some b =>
      if c3 == '=' && c4 == '=' && rest.isEmpty then
        if b % 16 == 0 then some [a * 4 + b / 16] else none
      else if c4 == '=' && rest.isEmpty then
        match b64Idx c3 with
        | some c =>
          if c % 4 == 0 then some [a * 4 + b / 16, b % 16 * 16 + c / 4]
          else none
        | none => none
      else
        match b64Idx c3, b64Idx c4, b64DecodeBytes rest with
        | some c, some d, some tail =>
          some ((a * 4 + b / 16) :: (b % 16 * 16 + c / 4) :: (c % 4 * 64 + d) :: tail)
        | _, _, _ => none
    | _, _ => none
  | _ => none

/-- The X-PAYMENT header construction (x402-axios step 8):
`Buffer.from(JSON.stringify(paymentPayload)).toString('base64')`. -/
def encodeHeader (p : PaymentPayload) : String :=
  String.mk (b64EncodeBytes (utf8Encode (serializePayload p)))

/-! ## JSON parsing of the payload (the facilitator decode path) -/

/-- Value of one hexadecimal digit character (digits, then lowercase,
then uppercase letters, by code point). -/
def hexVal (c : Char) : Option Nat :=
  if 48 ≤ c.toNat ∧ c.toNat ≤ 57 then some (c.toNat - 48)
  else if 97 ≤ c.toNat ∧ c.toNat ≤ 102 then some (c.toNat - 87)
  else if 65 ≤ c.toNat ∧ c.toNat ≤ 70 then some (c.toNat - 55)
  else none

/-- Combined value of four hexadecimal digit characters. -/
def hex4 (a b c d : Char) : Option Nat :=
  match hexVal a, hexVal b, hexVal c, hexVal d with
  | some va, some vb, some vc, some vd =>
    some (va * 4096 + vb * 256 + vc * 16 + vd)
  | _, _, _, _ => none

/-- Decode the escape sequence following a backslash inside a JSON string
literal: the two-character escapes, then `\\uXXXX` taken as one scalar
(surrogate-pair recombination never arises on encoder output, which only
`\\u`-escapes control characters). Returns the decoded character and the
remaining input. -/
def unescapeHead : List Char → Option (Char × List Char)
  | [] => none
  | e :: rest =>
    if e == '"' then some ('"', rest)
    else if e == '\\' then some ('\\', rest)
    else if e == '/' then some ('/', rest)
    else if e == 'b' then some ('\x08', rest)
    else if e == 't' then some ('\t', rest)
    else if e == 'n' then some ('\n', rest)
    else if e == 'f' then some ('\x0c', rest)
    else if e == 'r' then some ('\r', rest)
    else if e == 'u' then
      match rest with
      | h1 :: h2 :: h3 :: h4 :: rest2 =>
        (hex4 h1 h2 h3 h4).map (fun v => (Char.ofNat v, rest2))
      | _ => none
    else none

/-- Fueled body of the JSON string parser; one unit of fuel per consumed
character always suffices. -/
def parseStrBodyAux : Nat → List Char → Option (List Char × List Char)
  | _, [] => none
  | 0, _ :: _ => none
  | fuel + 1, c :: rest =>
    if c == '"' then some ([], rest)
    else if c == '\\' then
      (unescapeHead rest).bind fun q =>
        (parseStrBodyAux fuel q.2).map fun p => (q.1 :: p.1, p.2)
    else if c.toNat < 32 then none
    else (parseStrBodyAux fuel rest).map fun p => (c :: p.1, p.2)

/-- Parse a JSON string body after its opening quote, consuming the
closing quote, returning the content and the remainder — `JSON.parse`
string-literal semantics. -/
def parseStrBody (l : List Char) : Option (List Char × List Char) :=
  parseStrBodyAux l.length l

/-- Consume a maximal run of decimal digits onto an accumulator. -/
def parseDigitsAcc (acc : Nat) : List Char → Nat × List Char
  | [] => (acc, [])
  | c :: rest =>
    if 48 ≤ c.toNat ∧ c.toNat ≤ 57 then
      parseDigitsAcc (acc * 10 + (c.toNat - 48)) rest
    else (acc, c :: rest)

/-- Parse a nonnegative decimal JSON number. -/
def parseNat : List Char → Option (Nat × List Char)
  | [] => none
  | c :: rest =>
    if 48 ≤ c.toNat ∧ c.toNat ≤ 57 then some (parseDigitsAcc 0 (c :: rest))
    else none

/-- Does the input not start with a decimal digit (so a digit run ends
there)? -/
def headNonDigit : List Char → Prop
  | [] => True
  | c :: _ => ¬(48 ≤ c.toNat ∧ c.toNat ≤ 57)

/-- Consume an exact literal from the front of the input. -/
def expectLit : List Char → List Char → Option (List Char)
  | [], l => some l
  | _ :: _, [] => none
  | a :: as, b :: bs => if a == b then expectLit as bs else none

/-- Models `JSON.parse` restricted to the exact object grammar `serializePayload`
produces (fixed key order, no whitespace), projected onto the four payload
fields — which is what the facilitator's decode path computes on any
header the encoder built. -/
def parsePayloadChars (l : List Char) : Option PaymentPayload := do
  let l ← expectLit "\x7b\"x402Version\":".data l
  let (v, l) ← parseNat l
  let l ← expectLit ",\"scheme\":\"".data l
  let (sch, l) ← parseStrBody l
  let l ← expectLit ",\"network\":\"".data l
  let (net, l) ← parseStrBody l
  let l ← expectLit ",\"payload\":\x7b\"signedTransaction\":\"".data l
  let (st, l) ← parseStrBody l
  let l ← expectLit "\x7d\x7d".data l
  match l with
  | [] => some ⟨v, String.mk sch, String.mk net, ⟨String.mk st⟩⟩
  | _ => none

/-- The facilitator's X-PAYMENT decode path (verify lines 94–118, settle
lines 343–371): `Buffer.from(header, 'base64').toString('utf-8')` then
`JSON.parse`. Strict where Node is lenient (see `b64DecodeBytes`,
`utf8Decode`); every failure collapses to `none`. -/
def decodeHeader (s : String) : Option PaymentPayload := do
  let bytes ← b64DecodeBytes s.data
  let cs ← utf8Decode bytes
  parsePayloadChars cs

/-! ## Facilitator verify (`api/facilitator/verify/route.ts`) -/

/-- VerifyResponse. -/
structure VerifyResponse where
  isValid : Bool
  invalidReason : Option String
deriving DecidableEq, Repr

/-- An HTTP JSON reply: status code plus body. -/
structure Reply (α : Type) where
  status : Nat
  body : α
deriving DecidableEq, Repr

/-- VerifyRequest body (`x402Version`, `paymentHeader`,
`paymentRequirements`). An absent header is the empty string (both
falsy). -/
structure VerifyReq where
  x402Version : Nat
  paymentHeader : String
  paymentRequirements : PaymentRequirements
deriving DecidableEq, Repr

/-- Models `tx.to?.toLowerCase()`. -/
def optLower (o : Option String) : Option String := o.map lowerStr

/-- JavaScript template-literal printing of a nullable string
(interpolating `null` prints "null"). -/
def optStr (o : Option String) : String := o.getD "null"

/-- The facilitator verify endpoint. `parseTx` models
`parseSignedTransaction` (ethers `Transaction.from`, which throws on
garbage — `.error msg` — or returns the parsed fields); `isValidAddr`
models `isValidAddress` (ethers `isAddress`). The short-circuit order and
every reason string follow the source. A decode failure of any kind is
reported as the JSON failure (Node's lenient base64 step itself never
throws). -/
def verifyPOST (parseTx : String → Except String ParsedTx)
    (isValidAddr : String → Bool) (req : VerifyReq) : Reply VerifyResponse :=
  if req.x402Version != X402_VERSION then
    ⟨200, false, some ("Unsupported x402 version: " ++ natStr req.x402Version)⟩
  else if req.paymentHeader == "" then
    ⟨400, false, some "Missing paymentHeader or paymentRequirements"⟩
  else if req.paymentRequirements.scheme != MONAD_SCHEME then
    ⟨200, false, some ("Unsupported scheme: " ++ req.paymentRequirements.scheme)⟩
  else if req.paymentRequirements.network == ""
      || !strStartsWith req.paymentRequirements.network "monad-" then
    ⟨200, false, some ("Invalid Monad network: " ++ req.paymentRequirements.network
      ++ ". Expected monad-testnet or monad-mainnet")⟩
  else
    match decodeHeader req.paymentHeader with
    | none => ⟨200, false, some "Invalid JSON in payment payload"⟩
    | some paymentPayload =>
      if paymentPayload.scheme != req.paymentRequirements.scheme then
        ⟨200, false, some ("Scheme mismatch: expected " ++ req.paymentRequirements.scheme
          ++ ", got " ++ paymentPayload.scheme)⟩
      else if paymentPayload.network != req.paymentRequirements.network then
        ⟨200, false, some ("Network mismatch: expected " ++ req.paymentRequirements.network
          ++ ", got " ++ paymentPayload.network)⟩
      else if paymentPayload.payload.signedTransaction == "" then
        ⟨200, false, some "Invalid payload: missing signedTransaction"⟩
      else
        match parseTx paymentPayload.payload.signedTransaction with
        | .error msg => ⟨200, false, some ("Failed to parse transaction: " ++ msg)⟩
        | .ok tx =>
          if optLower tx.toAddr != some (lowerStr req.paymentRequirements.payTo) then
            ⟨200, false, some ("Recipient mismatch: expected "
              ++ req.paymentRequirements.payTo ++ ", got " ++ optStr tx.toAddr)⟩
          else if natStr tx.value != req.paymentRequirements.maxAmountRequired then
            ⟨200, false, some ("Amount mismatch: expected "
              ++ req.paymentRequirements.maxAmountRequired ++ ", got " ++ natStr tx.value)⟩
          else if falsyStr tx.sender || !isValidAddr (tx.sender.getD "") then
            ⟨200, false, some "Invalid sender address"⟩
          else ⟨200, true, none⟩

/-! ## Facilitator settle (`api/facilitator/settle/route.ts`) -/

/-- SettleResponse. -/
structure SettleResponse where
  success : Bool
  error : Option String
  txHash : Option String
  networkId : Option String
deriving DecidableEq, Repr

/-- SettleRequest body — same shape as VerifyRequest. -/
structure SettleReq where
  x402Version : Nat
  paymentHeader : String
  paymentRequirements : PaymentRequirements
deriving DecidableEq, Repr

/-- The broadcast response (`tx.hash`). -/
structure TxResp where
  hash : String
deriving DecidableEq, Repr

/-- A transaction receipt (`status` is 1 on success). -/
structure Receipt where
  status : Nat
  blockNumber : Nat
deriving DecidableEq, Repr

/-- Chain collaborator behaviour for one settle call: the outcome of
`submitTransaction` and of `waitForTransaction`. `.error msg` models a
rejected promise whose error has message `msg`; `waitForTransaction` can
also fulfil with no receipt. -/
structure ChainBehaviour where
  submit : Except String TxResp
  waitFor : Except String (Option Receipt)

/-- The settle endpoint's observable outcome: the HTTP reply plus whether
the signed transaction was handed to `submitTransaction` (i.e. broadcast
was attempted). -/
structure SettleResult where
  status : Nat
  body : SettleResponse
  broadcastAttempted : Bool
deriving DecidableEq, Repr

/-- The outer catch's duplicate-transaction test (settle lines 470–472):
`error.message?.includes` on three replay markers. -/
def isDuplicateTxError (msg : String) : Bool :=
  containsCS msg "SEQUENCE_NUMBER_TOO_OLD" || containsCS msg "INVALID_SEQ_NUMBER"
    || containsCS msg "already submitted"

/-- The settle endpoint's outer catch handler (lines 463–490): a 409
conflict when the fault message carries a replay marker, otherwise a
generic 500. -/
def settleCatchReply (broadcast : Bool) (msg : String) : SettleResult :=
  if isDuplicateTxError msg then
    ⟨409, ⟨false, some "Transaction already used", none, none⟩, broadcast⟩
  else ⟨500, ⟨false, some msg, none, none⟩, broadcast⟩

/-- The facilitator settle endpoint. Pipeline exactly as the source:
version, header presence, requirements scheme, network presence, header
decode, signed-transaction presence — and then straight to submission.
The source performs no comparison of the decoded payload's scheme or
network against the requirements, and no transaction parsing or
recipient/amount checks. A rejection from `submitTransaction` is caught
by the inner catch (lines 403–412), which replies with a generic 500
carrying the underlying message, so it never reaches the outer catch's
duplicate classification; only a fault thrown outside that inner
try/catch (modelled: a rejected receipt wait) reaches `settleCatchReply`. -/
def settlePOST (chain : ChainBehaviour) (req : SettleReq) : SettleResult :=
  if req.x402Version != X402_VERSION then
    ⟨200, ⟨false, some ("Unsupported x402 version: " ++ natStr req.x402Version),
      none, none⟩, false⟩
  else if req.paymentHeader == "" then
    ⟨400, ⟨false, some "Missing paymentHeader or paymentRequirements", none, none⟩, false⟩
  else if req.paymentRequirements.scheme != MONAD_SCHEME then
    ⟨200, ⟨false, some ("Unsupported scheme: " ++ req.paymentRequirements.scheme),
      none, none⟩, false⟩
  else if req.paymentRequirements.network == "" then
    ⟨400, ⟨false, some "Network not specified in payment requirements", none, none⟩, false⟩
  else
    match decodeHeader req.paymentHeader with
    | none => ⟨400, ⟨false, some "Invalid JSON", none, none⟩, false⟩
    | some paymentPayload =>
      if paymentPayload.payload.signedTransaction == "" then
        ⟨200, ⟨false, some "Invalid payload: missing signedTransaction", none, none⟩, false⟩
      else
        match chain.submit with
        | .error msg => ⟨500, ⟨false, some msg, none, none⟩, true⟩
        | .ok txResponse =>
          match chain.waitFor with
          | .error msg => settleCatchReply true msg
          | .ok none =>
            ⟨200, ⟨false, some "Transaction receipt not found", some txResponse.hash,
              some req.paymentRequirements.network⟩, true⟩
          | .ok (some receipt) =>
            if receipt.status != 1 then
              ⟨200, ⟨false, some "Transaction failed on blockchain", some txResponse.hash,
                some req.paymentRequirements.network⟩, true⟩
            else
              ⟨200, ⟨true, none, some txResponse.hash,
                some req.paymentRequirements.network⟩, true⟩

/-! ## Payment middleware (`lib/x402-middleware.ts`) -/

/-- RouteConfig: `price`, optional `network`, and the optional nested
`config` fields flattened (`outputSchema` is never read and omitted). -/
structure RouteConfig where
  price : String
  network : Option String
  description : Option String
  mimeType : Option String
  maxTimeoutSeconds : Option Nat
deriving DecidableEq, Repr

/-- The slice of an inbound request the middleware reads. -/
structure MwRequest where
  pathname : String
  url : String
  xPayment : Option String
deriving DecidableEq, Repr

/-- The 402 response body (`PaymentRequiredResponse`). -/
structure PaymentRequiredBody where
  x402Version : Nat
  accepts : List PaymentRequirements
deriving DecidableEq, Repr

/-- Middleware outcome. `forwardPaid` carries the settlement that is
base64-JSON-attached as the X-Payment-Response header; `fault` is an
uncaught JavaScript exception escaping the middleware function. -/
inductive MwOutcome where
  | next
  | payment402 (body : PaymentRequiredBody)
  | errorReply (status : Nat) (error : String) (message : Option String)
  | forwardPaid (settlement : SettleResponse)
  | fault (msg : String)
deriving DecidableEq, Repr

/-- Models `routes[pathname]` on the route table. -/
def lookupRoute (routes : List (String × RouteConfig)) (path : String) :
    Option RouteConfig :=
  (routes.find? (fun r => r.1 == path)).map Prod.snd

/-- Observation on a middleware outcome: is it a 402 challenge whose
first accepted requirement demands exactly `price`? -/
def is402WithPrice (o : MwOutcome) (price : String) : Bool :=
  match o with
  | .payment402 body =>
    match body.accepts with
    | pr :: _ => pr.maxAmountRequired == price
    | [] => false
  | _ => false

/-- The payment middleware for one request. `facVerify` and `facSettle`
model the two facilitator fetches (`.error` a network fault, caught by
the try/catch). Order follows the source: route lookup, network mapping
(where `routeConfig.network!` on an absent field reaches
`undefined.startsWith` and throws — before the recipient check), the
recipient configuration check, requirements construction, the
no-payment-header 402, then decode / version / scheme checks, verify,
settle, and the paid forward. -/
def paymentMiddleware (recipientAddress : String)
    (routes : List (String × RouteConfig))
    (facVerify : Except String VerifyResponse)
    (facSettle : Except String SettleResponse)
    (request : MwRequest) : MwOutcome :=
  match lookupRoute routes request.pathname with
  | none => .next
  | some routeConfig =>
    match routeConfig.network with
    | none => .fault "TypeError: undefined routeNetwork has no startsWith"
    | some routeNetwork =>
      let network := if routeNetwork == "mainnet" then MONAD_MAINNET
        else if routeNetwork == "testnet" then MONAD_TESTNET
        else if strStartsWith routeNetwork "monad-" then routeNetwork
        else "monad-" ++ routeNetwork
      if recipientAddress == "" then
        .errorReply 500 "Server configuration error: Payment recipient not configured" none
      else
        let paymentRequirements : PaymentRequirements :=
          ⟨MONAD_SCHEME, network, routeConfig.price, request.url,
            routeConfig.description, routeConfig.mimeType, recipientAddress,
            routeConfig.maxTimeoutSeconds⟩
        match request.xPayment with
        | none => .payment402 ⟨X402_VERSION, [paymentRequirements]⟩
        | some paymentHeader =>
          match decodeHeader paymentHeader with
          | none => .errorReply 500 "Payment processing failed" (some "JSON parse fault")
          | some paymentPayload =>
            if paymentPayload.x402Version != X402_VERSION then
              .errorReply 400
                ("Unsupported x402 version: " ++ natStr paymentPayload.x402Version) none
            else if paymentPayload.scheme != MONAD_SCHEME then
              .errorReply 400 ("Unsupported payment scheme: " ++ paymentPayload.scheme) none
            else
              match facVerify with
              | .error msg => .errorReply 500 "Payment processing failed" (some msg)
              | .ok verification =>
                if !verification.isValid then
                  .errorReply 403 "Payment verification failed" verification.invalidReason
                else
                  match facSettle with
                  | .error msg => .errorReply 500 "Payment processing failed" (some msg)
                  | .ok settlement =>
                    if !settlement.success then
                      .errorReply 402 "Payment settlement failed" settlement.error
                    else .forwardPaid settlement

/-! # Theorems -/

/-! ## Character code facts -/

theorem char_le_iff {a b : Char} : a ≤ b ↔ a.toNat ≤ b.toNat := Iff.rfl

theorem char_eq_iff {a b : Char} : a = b ↔ a.toNat = b.toNat :=
  ⟨fun h => by rw [h], fun h => Char.ext (UInt32.ext h)⟩

theorem char_toNat_ofNat_small {m : Nat} (h : m < 55296) :
    (Char.ofNat m).toNat = m := by
  have hv : Nat.isValidChar m := Or.inl h
  simp only [Char.ofNat]
  rw [dif_pos hv]
  rfl

theorem char_toNat_lt (c : Char) : c.toNat < 1114112 := by
  rcases c.valid with h | ⟨_, h⟩
  · exact Nat.lt_trans h (by norm_num)
  · exact h

/-! ## Base64 round-trip -/

theorem b64Idx_b64Ch : ∀ n, n < 64 → b64Idx (b64Ch n) = some n := by decide

theorem b64Ch_ne_pad : ∀ n, n < 64 → (b64Ch n == '=') = false := by decide

theorem b64_roundtrip_fuel :
    ∀ (k : Nat) (bs : List Nat), bs.length ≤ k → (∀ b ∈ bs, b < 256) →
      b64DecodeBytes (b64EncodeBytes bs) = some bs := by
  intro k
  induction k with
  | zero =>
    intro bs hl _
    have : bs = [] := List.length_eq_zero.mp (Nat.le_zero.mp hl)
    subst this
    rfl
  | succ k ih =>
    intro bs hl hb
    match bs with
    | [] => rfl
    | [a] =>
      have ha : a < 256 := hb a (by simp)
      have h1 : b64Idx (b64Ch (a / 4)) = some (a / 4) := b64Idx_b64Ch _ (by omega)
      have h2 : b64Idx (b64Ch (a % 4 * 16)) = some (a % 4 * 16) :=
        b64Idx_b64Ch _ (by omega)
      have h3 : a % 4 * 16 % 16 = 0 := by omega
      have h4 : a / 4 * 4 + a % 4 * 16 / 16 = a := by omega
      simp [b64EncodeBytes, b64DecodeBytes, h1, h2, h3, h4]
      all_goals omega
    | [a, b] =>
      have ha : a < 256 := hb a (by simp)
      have hbb : b < 256 := hb b (by simp)
      have h1 : b64Idx (b64Ch (a / 4)) = some (a / 4) := b64Idx_b64Ch _ (by omega)
      have h2 : b64Idx (b64Ch (a % 4 * 16 + b / 16)) = some (a % 4 * 16 + b / 16) :=
        b64Idx_b64Ch _ (by omega)
      have h3 : b64Idx (b64Ch (b % 16 * 4)) = some (b % 16 * 4) :=
        b64Idx_b64Ch _ (by omega)
      have hne : (b64Ch (b % 16 * 4) == '=') = false := b64Ch_ne_pad _ (by omega)
      have h4 : b % 16 * 4 % 4 = 0 := by omega
      have h5 : a / 4 * 4 + (a % 4 * 16 + b / 16) / 16 = a := by omega
      have h6 : (a % 4 * 16 + b / 16) % 16 * 16 + b % 16 * 4 / 4 = b := by omega
      simp [b64EncodeBytes, b64DecodeBytes, h1, h2, h3, hne, h4, h5, h6]
      all_goals omega
    | a :: b :: c :: rest =>
      have ha : a < 256 := hb a (by simp)
      have hbb : b < 256 := hb b (by simp)
      have hc : c < 256 := hb c (by simp)
      have h1 : b64Idx (b64Ch (a / 4)) = some (a / 4) := b64Idx_b64Ch _ (by omega)
      have h2 : b64Idx (b64Ch (a % 4 * 16 + b / 16)) = some (a % 4 * 16 + b / 16) :=
        b64Idx_b64Ch _ (by omega)
      have h3 : b64Idx (b64Ch (b % 16 * 4 + c / 64)) = some (b % 16 * 4 + c / 64) :=
        b64Idx_b64Ch _ (by omega)
      have h4 : b64Idx (b64Ch (c % 64)) = some (c % 64) := b64Idx_b64Ch _ (by omega)
      have hne1 : (b64Ch (b % 16 * 4 + c / 64) == '=') = false :=
        b64Ch_ne_pad _ (by omega)
      have hne2 : (b64Ch (c % 64) == '=') = false := b64Ch_ne_pad _ (by omega)
      have hrest : b64DecodeBytes (b64EncodeBytes rest) = some rest := by
        refine ih rest ?_ ?_
        · have := hl
          simp only [List.length_cons] at this
          omega
        · intro x hx
          exact hb x (by simp [hx])
      have h5 : a / 4 * 4 + (a % 4 * 16 + b / 16) / 16 = a := by omega
      have h6 : (a % 4 * 16 + b / 16) % 16 * 16 + (b % 16 * 4 + c / 64) / 4 = b := by
        omega
      have h7 : (b % 16 * 4 + c / 64) % 4 * 64 + c % 64 = c := by omega
      simp [b64EncodeBytes, b64DecodeBytes, h1, h2, h3, h4, hne1, hne2, hrest,
        h5, h6, h7]

/-- Decoding inverts encoding on any byte list. -/
theorem b64_roundtrip (bs : List Nat) (hb : ∀ b ∈ bs, b < 256) :
    b64DecodeBytes (b64EncodeBytes bs) = some bs :=
  b64_roundtrip_fuel bs.length bs (Nat.le_refl _) hb

/-! ## UTF-8 round-trip -/

theorem utf8EncodeChar_lt (c : Char) : ∀ b ∈ utf8EncodeChar c, b < 256 := by
  have hv := char_toNat_lt c
  intro b hb
  unfold utf8EncodeChar at hb
  by_cases h1 : c.toNat < 128
  · rw [if_pos h1] at hb
    simp at hb
    omega
  · rw [if_neg h1] at hb
    by_cases h2 : c.toNat < 2048
    · rw [if_pos h2] at hb
      simp at hb
      rcases hb with rfl | rfl <;> omega
    · rw [if_neg h2] at hb
      by_cases h3 : c.toNat < 65536
      · rw [if_pos h3] at hb
        simp at hb
        rcases hb with rfl | rfl | rfl <;> omega
      · rw [if_neg h3] at hb
        simp at hb
        rcases hb with rfl | rfl | rfl | rfl <;> omega

theorem utf8Encode_lt (cs : List Char) : ∀ b ∈ utf8Encode cs, b < 256 := by
  induction cs with
  | nil => intro b hb; simp [utf8Encode] at hb
  | cons c cs ih =>
    intro b hb
    simp only [utf8Encode, List.mem_append] at hb
    rcases hb with hb | hb
    · exact utf8EncodeChar_lt c b hb
    · exact ih b hb

theorem takeCont_one {b : Nat} (h1 : 128 ≤ b) (h2 : b < 192) (acc : Nat)
    (l : List Nat) : takeCont 1 acc (b :: l) = some (acc * 64 + (b - 128), l) := by
  show takeCont (0 + 1) acc (b :: l) = _
  rw [takeCont, if_pos ⟨h1, h2⟩]
  rfl

theorem takeCont_two {b b2 : Nat} (h1 : 128 ≤ b) (h2 : b < 192) (h3 : 128 ≤ b2)
    (h4 : b2 < 192) (acc : Nat) (l : List Nat) :
    takeCont 2 acc (b :: b2 :: l)
      = some ((acc * 64 + (b - 128)) * 64 + (b2 - 128), l) := by
  show takeCont (1 + 1) acc (b :: b2 :: l) = _
  rw [takeCont, if_pos ⟨h1, h2⟩]
  exact takeCont_one h3 h4 _ l

theorem takeCont_three {b b2 b3 : Nat} (h1 : 128 ≤ b) (h2 : b < 192)
    (h3 : 128 ≤ b2) (h4 : b2 < 192) (h5 : 128 ≤ b3) (h6 : b3 < 192)
    (acc : Nat) (l : List Nat) :
    takeCont 3 acc (b :: b2 :: b3 :: l)
      = some (((acc * 64 + (b - 128)) * 64 + (b2 - 128)) * 64 + (b3 - 128), l) := by
  show takeCont (2 + 1) acc (b :: b2 :: b3 :: l) = _
  rw [takeCont, if_pos ⟨h1, h2⟩]
  exact takeCont_two h3 h4 h5 h6 _ l

theorem utf8DecodeAux_encode (cs : List Char) :
    ∀ fuel : Nat, (utf8Encode cs).length ≤ fuel →
      utf8DecodeAux fuel (utf8Encode cs) = some cs := by
  induction cs with
  | nil =>
    intro fuel _
    cases fuel <;> rfl
  | cons c cs ih =>
    intro fuel hlen
    rw [show utf8Encode (c :: cs) = utf8EncodeChar c ++ utf8Encode cs from rfl]
      at hlen ⊢
    have hv := char_toNat_lt c
    by_cases h1 : c.toNat < 128
    · rw [show utf8EncodeChar c = [c.toNat] from by
        unfold utf8EncodeChar; rw [if_pos h1]] at hlen ⊢
      rw [List.singleton_append] at hlen ⊢
      simp only [List.length_cons] at hlen
      obtain ⟨f, rfl⟩ : ∃ f, fuel = f + 1 := ⟨fuel - 1, by omega⟩
      rw [utf8DecodeAux, if_pos h1, ih f (by omega)]
      simp [Char.ofNat_toNat]
    · by_cases h2 : c.toNat < 2048
      · rw [show utf8EncodeChar c = [192 + c.toNat / 64, 128 + c.toNat % 64] from by
          unfold utf8EncodeChar; rw [if_neg h1, if_pos h2]] at hlen ⊢
        rw [List.cons_append, List.cons_append, List.nil_append] at hlen ⊢
        simp only [List.length_cons] at hlen
        obtain ⟨f, rfl⟩ : ∃ f, fuel = f + 1 := ⟨fuel - 1, by omega⟩
        rw [utf8DecodeAux, if_neg (by omega), if_neg (by omega), if_pos (by omega),
          takeCont_one (by omega) (by omega)]
        have hval : (192 + c.toNat / 64 - 192) * 64 + (128 + c.toNat % 64 - 128)
            = c.toNat := by omega
        simp only [Option.some_bind, hval, ih f (by omega)]
        simp [Char.ofNat_toNat]
      · by_cases h3 : c.toNat < 65536
        · rw [show utf8EncodeChar c
              = [224 + c.toNat / 4096, 128 + c.toNat / 64 % 64, 128 + c.toNat % 64]
            from by unfold utf8EncodeChar; rw [if_neg h1, if_neg h2, if_pos h3]]
            at hlen ⊢
          rw [List.cons_append, List.cons_append, List.cons_append,
            List.nil_append] at hlen ⊢
          simp only [List.length_cons] at hlen
          obtain ⟨f, rfl⟩ : ∃ f, fuel = f + 1 := ⟨fuel - 1, by omega⟩
          rw [utf8DecodeAux, if_neg (by omega), if_neg (by omega),
            if_neg (by omega), if_pos (by omega),
            takeCont_two (by omega) (by omega) (by omega) (by omega)]
          have hval : ((224 + c.toNat / 4096 - 224) * 64
                + (128 + c.toNat / 64 % 64 - 128)) * 64 + (128 + c.toNat % 64 - 128)
              = c.toNat := by omega
          simp only [Option.some_bind, hval, ih f (by omega)]
          simp [Char.ofNat_toNat]
        · rw [show utf8EncodeChar c
              = [240 + c.toNat / 262144, 128 + c.toNat / 4096 % 64,
                 128 + c.toNat / 64 % 64, 128 + c.toNat % 64]
            from by unfold utf8EncodeChar; rw [if_neg h1, if_neg h2, if_neg h3]]
            at hlen ⊢
          rw [List.cons_append, List.cons_append, List.cons_append,
            List.cons_append, List.nil_append] at hlen ⊢
          simp only [List.length_cons] at hlen
          obtain ⟨f, rfl⟩ : ∃ f, fuel = f + 1 := ⟨fuel - 1, by omega⟩
          rw [utf8DecodeAux, if_neg (by omega), if_neg (by omega),
            if_neg (by omega), if_neg (by omega), if_pos (by omega),
            takeCont_three (by omega) (by omega) (by omega) (by omega)
              (by omega) (by omega)]
          have hval : (((240 + c.toNat / 262144 - 240) * 64
                  + (128 + c.toNat / 4096 % 64 - 128)) * 64
                + (128 + c.toNat / 64 % 64 - 128)) * 64 + (128 + c.toNat % 64 - 128)
              = c.toNat := by omega
          simp only [Option.some_bind, hval, ih f (by omega)]
          simp [Char.ofNat_toNat]

/-- Decoding inverts encoding on any character list. -/
theorem utf8_roundtrip (cs : List Char) :
    utf8Decode (utf8Encode cs) = some cs :=
  utf8DecodeAux_encode cs (utf8Encode cs).length (Nat.le_refl _)

/-! ## Decimal round-trip -/

theorem digitCh_toNat {n : Nat} (h : n < 10) : (digitCh n).toNat = 48 + n :=
  char_toNat_ofNat_small (by omega)

theorem natCharsAux_eq_core :
    ∀ (fuel n : Nat) (acc : List Char), 0 < fuel → n < 10 ^ fuel →
      natCharsAux fuel n acc = natCharsCore n ++ acc := by
  intro fuel
  induction fuel with
  | zero => intro n acc h _; exact absurd h (Nat.lt_irrefl 0)
  | succ f ihf =>
    intro n acc _ hlt
    rw [natCharsAux]
    by_cases h10 : n < 10
    · rw [if_pos h10]
      unfold natCharsCore
      rw [if_pos h10, List.singleton_append]
    · rw [if_neg h10]
      have hf : 0 < f := by
        by_contra hc
        have hz : f = 0 := by omega
        subst hz
        rw [pow_one] at hlt
        omega
      have hpow : (10 : Nat) ^ (f + 1) = 10 ^ f * 10 := pow_succ 10 f
      have hdiv : n / 10 < 10 ^ f := by
        rw [hpow] at hlt
        omega
      rw [ihf (n / 10) _ hf hdiv]
      conv_rhs => rw [natCharsCore]
      rw [if_neg h10, List.append_assoc, List.singleton_append]

theorem natChars_eq_core (n : Nat) : natChars n = natCharsCore n := by
  unfold natChars
  have hlt : n < 10 ^ (n + 1) :=
    Nat.lt_of_lt_of_le (Nat.lt_pow_self (by omega) n)
      (Nat.pow_le_pow_right (by omega) (by omega))
  rw [natCharsAux_eq_core (n + 1) n [] (by omega) hlt, List.append_nil]

theorem natCharsCore_ne_nil (n : Nat) : natCharsCore n ≠ [] := by
  unfold natCharsCore
  split <;> simp

theorem natCharsCore_digits (n : Nat) :
    ∀ c ∈ natCharsCore n, 48 ≤ c.toNat ∧ c.toNat ≤ 57 := by
  induction n using Nat.strong_induction_on with
  | _ n ih =>
    intro c hc
    unfold natCharsCore at hc
    by_cases h10 : n < 10
    · rw [if_pos h10] at hc
      simp at hc
      subst hc
      rw [digitCh_toNat h10]
      omega
    · rw [if_neg h10] at hc
      simp at hc
      rcases hc with hc | rfl
      · exact ih (n / 10) (Nat.div_lt_self (by omega) (by omega)) c hc
      · rw [digitCh_toNat (by omega)]
        omega

theorem parseDigitsAcc_core (n : Nat) :
    ∀ (acc : Nat) (rest : List Char),
      parseDigitsAcc acc (natCharsCore n ++ rest)
        = parseDigitsAcc (acc * 10 ^ (natCharsCore n).length + n) rest := by
  induction n using Nat.strong_induction_on with
  | _ n ih =>
    intro acc rest
    by_cases h10 : n < 10
    · have hcore : natCharsCore n = [digitCh n] := by
        unfold natCharsCore
        rw [if_pos h10]
      rw [hcore, List.singleton_append, parseDigitsAcc,
        if_pos (by rw [digitCh_toNat h10]; omega)]
      have he : acc * 10 + ((digitCh n).toNat - 48) = acc * 10 ^ 1 + n := by
        rw [digitCh_toNat h10]
        omega
      rw [he]
      rfl
    · have hcore : natCharsCore n
          = natCharsCore (n / 10) ++ [digitCh (n % 10)] := by
        conv_lhs => rw [natCharsCore]
        rw [if_neg h10]
      rw [hcore, List.append_assoc, List.singleton_append,
        ih (n / 10) (Nat.div_lt_self (by omega) (by omega)) acc _,
        parseDigitsAcc, if_pos (by rw [digitCh_toNat (by omega)]; omega)]
      have he : (acc * 10 ^ (natCharsCore (n / 10)).length + n / 10) * 10
            + ((digitCh (n % 10)).toNat - 48)
          = acc * 10 ^ (natCharsCore (n / 10) ++ [digitCh (n % 10)]).length + n := by
        rw [digitCh_toNat (by omega), List.length_append, List.length_singleton,
          pow_succ, ← mul_assoc]
        omega
      rw [he]

/-- Parsing a decimal print followed by a non-digit recovers the number. -/
theorem parseNat_natChars (n : Nat) (L : List Char) (hL : headNonDigit L) :
    parseNat (natChars n ++ L) = some (n, L) := by
  rw [natChars_eq_core]
  obtain ⟨d, ds, hsplit⟩ : ∃ d ds, natCharsCore n = d :: ds := by
    cases h : natCharsCore n with
    | nil => exact absurd h (natCharsCore_ne_nil n)
    | cons d ds => exact ⟨d, ds, rfl⟩
  have hd : 48 ≤ d.toNat ∧ d.toNat ≤ 57 :=
    natCharsCore_digits n d (by rw [hsplit]; simp)
  rw [hsplit, List.cons_append, parseNat, if_pos hd, ← List.cons_append, ← hsplit,
    parseDigitsAcc_core]
  cases L with
  | nil =>
    rw [parseDigitsAcc]
    simp
  | cons c rest =>
    rw [parseDigitsAcc, if_neg hL]
    simp


/-! ## JSON string escape round-trip -/

theorem hexVal_hexCh {m : Nat} (h : m < 16) : hexVal (hexCh m) = some m := by
  unfold hexCh
  by_cases h10 : m < 10
  · rw [if_pos h10]
    have ht : (Char.ofNat (48 + m)).toNat = 48 + m :=
      char_toNat_ofNat_small (by omega)
    unfold hexVal
    rw [ht, if_pos (by omega)]
    congr 1
    omega
  · rw [if_neg h10]
    have ht : (Char.ofNat (87 + m)).toNat = 87 + m :=
      char_toNat_ofNat_small (by omega)
    unfold hexVal
    rw [ht, if_neg (by omega), if_pos (by omega)]
    congr 1
    omega

theorem hex4_eq {a b c d : Char} {va vb vc vd : Nat} (ha : hexVal a = some va)
    (hb : hexVal b = some vb) (hc : hexVal c = some vc) (hd : hexVal d = some vd) :
    hex4 a b c d = some (va * 4096 + vb * 256 + vc * 16 + vd) := by
  unfold hex4
  rw [ha, hb, hc, hd]

theorem unescapeHead_quote (L : List Char) :
    unescapeHead ('"' :: L) = some ('"', L) := rfl

theorem unescapeHead_bslash (L : List Char) :
    unescapeHead ('\\' :: L) = some ('\\', L) := rfl

theorem unescapeHead_b (L : List Char) :
    unescapeHead ('b' :: L) = some ('\x08', L) := rfl

theorem unescapeHead_t (L : List Char) :
    unescapeHead ('t' :: L) = some ('\t', L) := rfl

theorem unescapeHead_n (L : List Char) :
    unescapeHead ('n' :: L) = some ('\n', L) := rfl

theorem unescapeHead_f (L : List Char) :
    unescapeHead ('f' :: L) = some ('\x0c', L) := rfl

theorem unescapeHead_r (L : List Char) :
    unescapeHead ('r' :: L) = some ('\r', L) := rfl

theorem unescapeHead_u (h1 h2 h3 h4 : Char) (L : List Char) :
    unescapeHead ('u' :: h1 :: h2 :: h3 :: h4 :: L)
      = (hex4 h1 h2 h3 h4).map (fun v => (Char.ofNat v, L)) := rfl

theorem escapeChar_plain {c : Char} (h1 : c ≠ '"') (h2 : c ≠ '\\')
    (h3 : ¬c.toNat < 32) : escapeChar c = [c] := by
  have hb : c ≠ '\x08' := fun he => h3 (by rw [he]; decide)
  have ht : c ≠ '\t' := fun he => h3 (by rw [he]; decide)
  have hn : c ≠ '\n' := fun he => h3 (by rw [he]; decide)
  have hf : c ≠ '\x0c' := fun he => h3 (by rw [he]; decide)
  have hr : c ≠ '\r' := fun he => h3 (by rw [he]; decide)
  unfold escapeChar
  rw [if_neg (by simp [h1]), if_neg (by simp [h2]), if_neg (by simp [hb]),
    if_neg (by simp [ht]), if_neg (by simp [hn]), if_neg (by simp [hf]),
    if_neg (by simp [hr]), if_neg h3]

theorem escapeChar_ctrl {c : Char} (h1 : c ≠ '\x08') (h2 : c ≠ '\t')
    (h3 : c ≠ '\n') (h4 : c ≠ '\x0c') (h5 : c ≠ '\r') (h6 : c.toNat < 32) :
    escapeChar c
      = ['\\', 'u', '0', '0', hexCh (c.toNat / 16), hexCh (c.toNat % 16)] := by
  have hq : c ≠ '"' := fun he => by rw [he] at h6; exact absurd h6 (by decide)
  have hs : c ≠ '\\' := fun he => by rw [he] at h6; exact absurd h6 (by decide)
  unfold escapeChar
  rw [if_neg (by simp [hq]), if_neg (by simp [hs]), if_neg (by simp [h1]),
    if_neg (by simp [h2]), if_neg (by simp [h3]), if_neg (by simp [h4]),
    if_neg (by simp [h5]), if_pos h6]

theorem parseStrBodyAux_quote (fuel : Nat) (rest : List Char) :
    parseStrBodyAux (fuel + 1) ('"' :: rest) = some ([], rest) := rfl

theorem parseStrBodyAux_esc (fuel : Nat) (rest : List Char) :
    parseStrBodyAux (fuel + 1) ('\\' :: rest)
      = (unescapeHead rest).bind fun q =>
          (parseStrBodyAux fuel q.2).map fun p => (q.1 :: p.1, p.2) := rfl

theorem parseStrBodyAux_plain {c : Char} (h1 : c ≠ '"') (h2 : c ≠ '\\')
    (h3 : ¬c.toNat < 32) (fuel : Nat) (rest : List Char) :
    parseStrBodyAux (fuel + 1) (c :: rest)
      = (parseStrBodyAux fuel rest).map fun p => (c :: p.1, p.2) := by
  rw [parseStrBodyAux]
  rw [if_neg (by simp [h1]), if_neg (by simp [h2]), if_neg h3]

theorem parseStrBodyAux_escape (s : List Char) :
    ∀ (fuel : Nat) (rest : List Char),
      (escapeStr s ++ '"' :: rest).length ≤ fuel →
      parseStrBodyAux fuel (escapeStr s ++ '"' :: rest) = some (s, rest) := by
  induction s with
  | nil =>
    intro fuel rest hlen
    rw [show escapeStr [] = [] from rfl, List.nil_append] at hlen ⊢
    simp only [List.length_cons] at hlen
    obtain ⟨f, rfl⟩ : ∃ f, fuel = f + 1 := ⟨fuel - 1, by omega⟩
    exact parseStrBodyAux_quote f rest
  | cons c s ih =>
    intro fuel rest hlen
    rw [show escapeStr (c :: s) = escapeChar c ++ escapeStr s from rfl,
      List.append_assoc] at hlen ⊢
    by_cases hq : c = '"'
    · subst hq
      rw [show escapeChar '"' = ['\\', '"'] from rfl, List.cons_append,
        List.cons_append, List.nil_append] at hlen ⊢
      simp only [List.length_cons] at hlen
      obtain ⟨f, rfl⟩ : ∃ f, fuel = f + 1 := ⟨fuel - 1, by omega⟩
      rw [parseStrBodyAux_esc, unescapeHead_quote]
      simp only [Option.some_bind]
      rw [ih f rest (by omega)]
      rfl
    · by_cases hs : c = '\\'
      · subst hs
        rw [show escapeChar '\\' = ['\\', '\\'] from rfl, List.cons_append,
          List.cons_append, List.nil_append] at hlen ⊢
        simp only [List.length_cons] at hlen
        obtain ⟨f, rfl⟩ : ∃ f, fuel = f + 1 := ⟨fuel - 1, by omega⟩
        rw [parseStrBodyAux_esc, unescapeHead_bslash]
        simp only [Option.some_bind]
        rw [ih f rest (by omega)]
        rfl
      · by_cases hb : c = '\x08'
        · subst hb
          rw [show escapeChar '\x08' = ['\\', 'b'] from rfl, List.cons_append,
            List.cons_append, List.nil_append] at hlen ⊢
          simp only [List.length_cons] at hlen
          obtain ⟨f, rfl⟩ : ∃ f, fuel = f + 1 := ⟨fuel - 1, by omega⟩
          rw [parseStrBodyAux_esc, unescapeHead_b]
          simp only [Option.some_bind]
          rw [ih f rest (by omega)]
          rfl
        · by_cases ht : c = '\t'
          · subst ht
            rw [show escapeChar '\t' = ['\\', 't'] from rfl, List.cons_append,
              List.cons_append, List.nil_append] at hlen ⊢
            simp only [List.length_cons] at hlen
            obtain ⟨f, rfl⟩ : ∃ f, fuel = f + 1 := ⟨fuel - 1, by omega⟩
            rw [parseStrBodyAux_esc, unescapeHead_t]
            simp only [Option.some_bind]
            rw [ih f rest (by omega)]
            rfl
          · by_cases hn : c = '\n'
            · subst hn
              rw [show escapeChar '\n' = ['\\', 'n'] from rfl, List.cons_append,
                List.cons_append, List.nil_append] at hlen ⊢
              simp only [List.length_cons] at hlen
              obtain ⟨f, rfl⟩ : ∃ f, fuel = f + 1 := ⟨fuel - 1, by omega⟩
              rw [parseStrBodyAux_esc, unescapeHead_n]
              simp only [Option.some_bind]
              rw [ih f rest (by omega)]
              rfl
            · by_cases hf : c = '\x0c'
              · subst hf
                rw [show escapeChar '\x0c' = ['\\', 'f'] from rfl,
                  List.cons_append, List.cons_append, List.nil_append] at hlen ⊢
                simp only [List.length_cons] at hlen
                obtain ⟨f, rfl⟩ : ∃ f, fuel = f + 1 := ⟨fuel - 1, by omega⟩
                rw [parseStrBodyAux_esc, unescapeHead_f]
                simp only [Option.some_bind]
                rw [ih f rest (by omega)]
                rfl
              · by_cases hr : c = '\r'
                · subst hr
                  rw [show escapeChar '\r' = ['\\', 'r'] from rfl,
                    List.cons_append, List.cons_append, List.nil_append] at hlen ⊢
                  simp only [List.length_cons] at hlen
                  obtain ⟨f, rfl⟩ : ∃ f, fuel = f + 1 := ⟨fuel - 1, by omega⟩
                  rw [parseStrBodyAux_esc, unescapeHead_r]
                  simp only [Option.some_bind]
                  rw [ih f rest (by omega)]
                  rfl
                · by_cases hc32 : c.toNat < 32
                  · rw [escapeChar_ctrl hb ht hn hf hr hc32, List.cons_append,
                      List.cons_append, List.cons_append, List.cons_append,
                      List.cons_append, List.cons_append, List.nil_append]
                      at hlen ⊢
                    simp only [List.length_cons] at hlen
                    obtain ⟨f, rfl⟩ : ∃ f, fuel = f + 1 := ⟨fuel - 1, by omega⟩
                    have h0 : hexVal '0' = some 0 := by decide
                    rw [parseStrBodyAux_esc, unescapeHead_u,
                      hex4_eq h0 h0 (hexVal_hexCh (by omega))
                        (hexVal_hexCh (by omega))]
                    have hval : 0 * 4096 + 0 * 256 + c.toNat / 16 * 16 + c.toNat % 16
                        = c.toNat := by omega
                    rw [hval]
                    simp only [Option.map_some', Option.some_bind]
                    rw [ih f rest (by omega)]
                    simp [Char.ofNat_toNat]
                  · rw [escapeChar_plain hq hs hc32, List.cons_append,
                      List.nil_append] at hlen ⊢
                    simp only [List.length_cons] at hlen
                    obtain ⟨f, rfl⟩ : ∃ f, fuel = f + 1 := ⟨fuel - 1, by omega⟩
                    rw [parseStrBodyAux_plain hq hs hc32, ih f rest (by omega)]
                    rfl

/-- Parsing an escaped string body up to its closing quote recovers the
original string. -/
theorem parseStrBody_escape (s rest : List Char) :
    parseStrBody (escapeStr s ++ '"' :: rest) = some (s, rest) :=
  parseStrBodyAux_escape s _ rest (Nat.le_refl _)

/-! ## Payload round-trip -/

theorem expectLit_append (lit : List Char) :
    ∀ rest : List Char, expectLit lit (lit ++ rest) = some rest := by
  induction lit with
  | nil => intro rest; rfl
  | cons a as ih =>
    intro rest
    rw [List.cons_append, expectLit, if_pos (by simp)]
    exact ih rest

theorem expectLit_self (lit : List Char) : expectLit lit lit = some [] := by
  have h := expectLit_append lit []
  rwa [List.append_nil] at h

theorem mkStr_data (s : String) : String.mk s.data = s := rfl

/-- Parsing (on this grammar, as `JSON.parse` does) inverts `JSON.stringify` of the
payload object. -/
theorem parsePayload_serialize (p : PaymentPayload) :
    parsePayloadChars (serializePayload p) = some p := by
  obtain ⟨v, sch, net, ⟨st⟩⟩ := p
  unfold serializePayload parsePayloadChars
  simp only [List.append_assoc, Option.bind_eq_bind]
  rw [expectLit_append]
  simp only [Option.some_bind]
  rw [parseNat_natChars v _ (by
    show ¬(48 ≤ ','.toNat ∧ ','.toNat ≤ 57)
    decide)]
  simp only [Option.some_bind]
  rw [expectLit_append]
  simp only [Option.some_bind]
  rw [List.cons_append, parseStrBody_escape]
  simp only [Option.some_bind]
  rw [expectLit_append]
  simp only [Option.some_bind]
  rw [List.cons_append, parseStrBody_escape]
  simp only [Option.some_bind]
  rw [expectLit_append]
  simp only [Option.some_bind]
  rw [parseStrBody_escape]
  simp only [Option.some_bind]
  rw [expectLit_self]
  simp only [Option.some_bind]

/-- C7: the X-PAYMENT header round-trips — decoding the header produced
by encoding any PaymentPayload (JSON-serialize then UTF-8 then base64 on
the way out; base64-decode, UTF-8-decode, JSON-parse on the way in)
yields a payload equal to the original. -/
theorem decodeHeader_encodeHeader (p : PaymentPayload) :
    decodeHeader (encodeHeader p) = some p := by
  unfold encodeHeader decodeHeader
  rw [show (String.mk (b64EncodeBytes (utf8Encode (serializePayload p)))).data
      = b64EncodeBytes (utf8Encode (serializePayload p)) from rfl]
  simp only [Option.bind_eq_bind]
  rw [b64_roundtrip _ (utf8Encode_lt _)]
  simp only [Option.some_bind]
  rw [utf8_roundtrip]
  simp only [Option.some_bind]
  exact parsePayload_serialize p

/-! ## Facilitator verify: reaching the transaction checks -/

theorem natStr_inj {a b : Nat} (h : natStr a = natStr b) : a = b := by
  have h2 : natChars a = natChars b := congrArg String.data h
  have ha := parseNat_natChars a [] trivial
  have hb := parseNat_natChars b [] trivial
  rw [List.append_nil] at ha hb
  rw [h2, hb] at ha
  injection ha with h3
  injection h3 with h4 h5
  exact h4.symm

theorem verifyPOST_parsed (parseTx : String → Except String ParsedTx)
    (isValidAddr : String → Bool) (req : VerifyReq) (pp : PaymentPayload)
    (tx : ParsedTx)
    (hver : req.x402Version = X402_VERSION)
    (hhdr : req.paymentHeader ≠ "")
    (hsch : req.paymentRequirements.scheme = MONAD_SCHEME)
    (hnet : strStartsWith req.paymentRequirements.network "monad-" = true)
    (hdec : decodeHeader req.paymentHeader = some pp)
    (hps : pp.scheme = req.paymentRequirements.scheme)
    (hpn : pp.network = req.paymentRequirements.network)
    (hst : pp.payload.signedTransaction ≠ "")
    (hparse : parseTx pp.payload.signedTransaction = Except.ok tx) :
    verifyPOST parseTx isValidAddr req =
      (if optLower tx.toAddr != some (lowerStr req.paymentRequirements.payTo) then
        ⟨200, false, some ("Recipient mismatch: expected "
          ++ req.paymentRequirements.payTo ++ ", got " ++ optStr tx.toAddr)⟩
      else if natStr tx.value != req.paymentRequirements.maxAmountRequired then
        ⟨200, false, some ("Amount mismatch: expected "
          ++ req.paymentRequirements.maxAmountRequired ++ ", got " ++ natStr tx.value)⟩
      else if falsyStr tx.sender || !isValidAddr (tx.sender.getD "") then
        ⟨200, false, some "Invalid sender address"⟩
      else ⟨200, true, none⟩) := by
  have hnz : req.paymentRequirements.network ≠ "" := by
    intro he
    rw [he] at hnet
    exact absurd hnet (by decide)
  unfold verifyPOST
  rw [if_neg (by simp [hver]), if_neg (by simp [hhdr]), if_neg (by simp [hsch]),
    if_neg (by simp [hnz, hnet]), hdec]
  simp only [Option.some_bind]
  rw [if_neg (by simp [hps]), if_neg (by simp [hpn]), if_neg (by simp [hst]),
    hparse]

/-- C3: for a verify request that reaches transaction parsing (all prior
steps pass) and whose parsed value differs from the numeric value of
`maxAmountRequired` — by one atomic unit or any amount, since the source
compares exact decimal strings — verify reports invalid; and when the
recipient check (which the source runs first) passes, the reported reason
is precisely the amount mismatch. -/
theorem verify_amount_exact (parseTx : String → Except String ParsedTx)
    (isValidAddr : String → Bool) (req : VerifyReq) (pp : PaymentPayload)
    (tx : ParsedTx) (m : Nat)
    (hver : req.x402Version = X402_VERSION)
    (hhdr : req.paymentHeader ≠ "")
    (hsch : req.paymentRequirements.scheme = MONAD_SCHEME)
    (hnet : strStartsWith req.paymentRequirements.network "monad-" = true)
    (hdec : decodeHeader req.paymentHeader = some pp)
    (hps : pp.scheme = req.paymentRequirements.scheme)
    (hpn : pp.network = req.paymentRequirements.network)
    (hst : pp.payload.signedTransaction ≠ "")
    (hparse : parseTx pp.payload.signedTransaction = Except.ok tx)
    (hm : req.paymentRequirements.maxAmountRequired = natStr m)
    (hne : tx.value ≠ m) :
    (verifyPOST parseTx isValidAddr req).body.isValid = false
    ∧ (optLower tx.toAddr = some (lowerStr req.paymentRequirements.payTo) →
        (verifyPOST parseTx isValidAddr req).body.invalidReason
          = some ("Amount mismatch: expected "
              ++ req.paymentRequirements.maxAmountRequired
              ++ ", got " ++ natStr tx.value)) := by
  have hrw := verifyPOST_parsed parseTx isValidAddr req pp tx hver hhdr hsch
    hnet hdec hps hpn hst hparse
  have hamt : (natStr tx.value != req.paymentRequirements.maxAmountRequired)
      = true := by
    rw [hm]
    simp only [bne_iff_ne, ne_eq]
    exact fun he => hne (natStr_inj he)
  constructor
  · rw [hrw]
    by_cases hrec : optLower tx.toAddr
        = some (lowerStr req.paymentRequirements.payTo)
    · rw [if_neg (by simp [hrec]), if_pos hamt]
    · rw [if_pos (by simp [hrec])]
  · intro hrec
    rw [hrw, if_neg (by simp [hrec]), if_pos hamt]

set_option maxRecDepth 100000 in
/-- Witness for C3: a header paying 999 wei against a requirement of
1000 wei to the same (case-folded) recipient. -/
theorem verify_amount_exact_witness :
    decodeHeader "eyJ4NDAyVmVyc2lvbiI6MSwic2NoZW1lIjoiZXZtLXRyYW5zZmVyIiwibmV0d29yayI6Im1vbmFkLXRlc3RuZXQiLCJwYXlsb2FkIjp7InNpZ25lZFRyYW5zYWN0aW9uIjoiMHhkZWFkIn19"
      = some ⟨1, "evm-transfer", "monad-testnet", ⟨"0xdead"⟩⟩
    ∧ (999 : Nat) ≠ 1000
    ∧ (verifyPOST (fun _ => Except.ok ⟨some "0xCAFE", some "0xab", 999, 10143⟩)
        (fun _ => true)
        ⟨1, "eyJ4NDAyVmVyc2lvbiI6MSwic2NoZW1lIjoiZXZtLXRyYW5zZmVyIiwibmV0d29yayI6Im1vbmFkLXRlc3RuZXQiLCJwYXlsb2FkIjp7InNpZ25lZFRyYW5zYWN0aW9uIjoiMHhkZWFkIn19",
          ⟨"evm-transfer", "monad-testnet", natStr 1000, "http://localhost/api",
            none, none, "0xAB", none⟩⟩).body.isValid = false :=
  ⟨by decide, by decide,
    (verify_amount_exact
      (fun _ => Except.ok ⟨some "0xCAFE", some "0xab", 999, 10143⟩)
      (fun _ => true)
      ⟨1, "eyJ4NDAyVmVyc2lvbiI6MSwic2NoZW1lIjoiZXZtLXRyYW5zZmVyIiwibmV0d29yayI6Im1vbmFkLXRlc3RuZXQiLCJwYXlsb2FkIjp7InNpZ25lZFRyYW5zYWN0aW9uIjoiMHhkZWFkIn19",
        ⟨"evm-transfer", "monad-testnet", natStr 1000, "http://localhost/api",
          none, none, "0xAB", none⟩⟩
      ⟨1, "evm-transfer", "monad-testnet", ⟨"0xdead"⟩⟩
      ⟨some "0xCAFE", some "0xab", 999, 10143⟩ 1000
      rfl (by decide) rfl (by decide) (by decide) rfl rfl (by decide) rfl rfl
      (by decide)).1⟩

/-- C4: for a verify request that reaches transaction parsing, the
recipient comparison is case-insensitive and decisive — the result can be
valid only if the parsed recipient equals `payTo` after lowercasing, and
whenever the two differ beyond letter case the result is exactly the
recipient-mismatch rejection. -/
theorem verify_recipient_case_insensitive
    (parseTx : String → Except String ParsedTx) (isValidAddr : String → Bool)
    (req : VerifyReq) (pp : PaymentPayload) (tx : ParsedTx)
    (hver : req.x402Version = X402_VERSION)
    (hhdr : req.paymentHeader ≠ "")
    (hsch : req.paymentRequirements.scheme = MONAD_SCHEME)
    (hnet : strStartsWith req.paymentRequirements.network "monad-" = true)
    (hdec : decodeHeader req.paymentHeader = some pp)
    (hps : pp.scheme = req.paymentRequirements.scheme)
    (hpn : pp.network = req.paymentRequirements.network)
    (hst : pp.payload.signedTransaction ≠ "")
    (hparse : parseTx pp.payload.signedTransaction = Except.ok tx) :
    ((verifyPOST parseTx isValidAddr req).body.isValid = true →
      optLower tx.toAddr = some (lowerStr req.paymentRequirements.payTo))
    ∧ (optLower tx.toAddr ≠ some (lowerStr req.paymentRequirements.payTo) →
        verifyPOST parseTx isValidAddr req
          = ⟨200, false, some ("Recipient mismatch: expected "
              ++ req.paymentRequirements.payTo ++ ", got " ++ optStr tx.toAddr)⟩) := by
  have hrw := verifyPOST_parsed parseTx isValidAddr req pp tx hver hhdr hsch
    hnet hdec hps hpn hst hparse
  constructor
  · intro hvalid
    by_contra hrec
    rw [hrw, if_pos (by simp [hrec])] at hvalid
    simp at hvalid
  · intro hrec
    rw [hrw, if_pos (by simp [hrec])]

set_option maxRecDepth 100000 in
/-- Witness for C4: a signed transaction paying recipient 0xFF while the
requirements demand 0xAB — rejected with the recipient-mismatch reason. -/
theorem verify_recipient_case_insensitive_witness :
    decodeHeader "eyJ4NDAyVmVyc2lvbiI6MSwic2NoZW1lIjoiZXZtLXRyYW5zZmVyIiwibmV0d29yayI6Im1vbmFkLXRlc3RuZXQiLCJwYXlsb2FkIjp7InNpZ25lZFRyYW5zYWN0aW9uIjoiMHhkZWFkIn19"
      = some ⟨1, "evm-transfer", "monad-testnet", ⟨"0xdead"⟩⟩
    ∧ (verifyPOST (fun _ => Except.ok ⟨some "0xCAFE", some "0xFF", 1000, 10143⟩)
        (fun _ => true)
        ⟨1, "eyJ4NDAyVmVyc2lvbiI6MSwic2NoZW1lIjoiZXZtLXRyYW5zZmVyIiwibmV0d29yayI6Im1vbmFkLXRlc3RuZXQiLCJwYXlsb2FkIjp7InNpZ25lZFRyYW5zYWN0aW9uIjoiMHhkZWFkIn19",
          ⟨"evm-transfer", "monad-testnet", "1000", "http://localhost/api",
            none, none, "0xAB", none⟩⟩)
      = ⟨200, false, some "Recipient mismatch: expected 0xAB, got 0xFF"⟩ :=
  ⟨by decide,
    ((verify_recipient_case_insensitive
      (fun _ => Except.ok ⟨some "0xCAFE", some "0xFF", 1000, 10143⟩)
      (fun _ => true)
      ⟨1, "eyJ4NDAyVmVyc2lvbiI6MSwic2NoZW1lIjoiZXZtLXRyYW5zZmVyIiwibmV0d29yayI6Im1vbmFkLXRlc3RuZXQiLCJwYXlsb2FkIjp7InNpZ25lZFRyYW5zYWN0aW9uIjoiMHhkZWFkIn19",
        ⟨"evm-transfer", "monad-testnet", "1000", "http://localhost/api",
          none, none, "0xAB", none⟩⟩
      ⟨1, "evm-transfer", "monad-testnet", ⟨"0xdead"⟩⟩
      ⟨some "0xCAFE", some "0xFF", 1000, 10143⟩
      rfl (by decide) rfl (by decide) (by decide) rfl rfl (by decide) rfl).2
      (by decide))⟩

/-! ## Facilitator settle: reaching submission -/

theorem settlePOST_reaches_submit (chain : ChainBehaviour) (req : SettleReq)
    (pp : PaymentPayload)
    (hver : req.x402Version = X402_VERSION)
    (hhdr : req.paymentHeader ≠ "")
    (hsch : req.paymentRequirements.scheme = MONAD_SCHEME)
    (hnz : req.paymentRequirements.network ≠ "")
    (hdec : decodeHeader req.paymentHeader = some pp)
    (hst : pp.payload.signedTransaction ≠ "") :
    settlePOST chain req =
      match chain.submit with
      | .error msg => ⟨500, ⟨false, some msg, none, none⟩, true⟩
      | .ok txResponse =>
        match chain.waitFor with
        | .error msg => settleCatchReply true msg
        | .ok none =>
          ⟨200, ⟨false, some "Transaction receipt not found", some txResponse.hash,
            some req.paymentRequirements.network⟩, true⟩
        | .ok (some receipt) =>
          if receipt.status != 1 then
            ⟨200, ⟨false, some "Transaction failed on blockchain",
              some txResponse.hash, some req.paymentRequirements.network⟩, true⟩
          else
            ⟨200, ⟨true, none, some txResponse.hash,
              some req.paymentRequirements.network⟩, true⟩ := by
  unfold settlePOST
  rw [if_neg (by simp [hver]), if_neg (by simp [hhdr]), if_neg (by simp [hsch]),
    if_neg (by simp [hnz]), hdec]
  simp only [Option.some_bind]
  rw [if_neg (by simp [hst])]

set_option maxRecDepth 100000 in
/-- Counterexample for C1: a settle request whose decoded payload declares
scheme "exact" and network "monad-mainnet" against requirements demanding
"evm-transfer" on "monad-testnet" is still broadcast, and settles with
success — settle never compares the decoded payload's scheme/network to
the requirements. -/
theorem settle_mismatch_counterexample :
    decodeHeader "eyJ4NDAyVmVyc2lvbiI6MSwic2NoZW1lIjoiZXhhY3QiLCJuZXR3b3JrIjoibW9uYWQtbWFpbm5ldCIsInBheWxvYWQiOnsic2lnbmVkVHJhbnNhY3Rpb24iOiIweGRlYWQifX0="
      = some ⟨1, "exact", "monad-mainnet", ⟨"0xdead"⟩⟩
    ∧ ("exact" : String) ≠ "evm-transfer"
    ∧ ("monad-mainnet" : String) ≠ "monad-testnet"
    ∧ settlePOST ⟨Except.ok ⟨"0xFEED"⟩, Except.ok (some ⟨1, 77⟩)⟩
        ⟨1, "eyJ4NDAyVmVyc2lvbiI6MSwic2NoZW1lIjoiZXhhY3QiLCJuZXR3b3JrIjoibW9uYWQtbWFpbm5ldCIsInBheWxvYWQiOnsic2lnbmVkVHJhbnNhY3Rpb24iOiIweGRlYWQifX0=",
          ⟨"evm-transfer", "monad-testnet", "1000", "http://localhost/api",
            none, none, "0xAB", none⟩⟩
      = ⟨200, ⟨true, none, some "0xFEED", some "monad-testnet"⟩, true⟩ :=
  ⟨by decide, by decide, by decide, by decide⟩

/-- C1 (amended): settle revalidates only the x402 version, header
presence, the requirements' scheme, network presence, header decodability
and the presence of a signed transaction — not verify's payload
scheme/network comparison (nor its parsing and recipient/amount checks) —
so a settle request whose decoded payload mismatches the requirements'
scheme or network is still handed to the chain for broadcast. -/
theorem settle_skips_payload_mismatch_checks (chain : ChainBehaviour)
    (req : SettleReq) (pp : PaymentPayload)
    (hver : req.x402Version = X402_VERSION)
    (hhdr : req.paymentHeader ≠ "")
    (hsch : req.paymentRequirements.scheme = MONAD_SCHEME)
    (hnz : req.paymentRequirements.network ≠ "")
    (hdec : decodeHeader req.paymentHeader = some pp)
    (hst : pp.payload.signedTransaction ≠ "")
    (_hmm : pp.scheme ≠ req.paymentRequirements.scheme
      ∨ pp.network ≠ req.paymentRequirements.network) :
    (settlePOST chain req).broadcastAttempted = true := by
  rw [settlePOST_reaches_submit chain req pp hver hhdr hsch hnz hdec hst]
  split
  · rfl
  · split
    · unfold settleCatchReply
      split <;> rfl
    · rfl
    · split <;> rfl

set_option maxRecDepth 100000 in
/-- Witness for the amended C1 at the counterexample's concrete input. -/
theorem settle_skips_payload_mismatch_checks_witness :
    decodeHeader "eyJ4NDAyVmVyc2lvbiI6MSwic2NoZW1lIjoiZXhhY3QiLCJuZXR3b3JrIjoibW9uYWQtbWFpbm5ldCIsInBheWxvYWQiOnsic2lnbmVkVHJhbnNhY3Rpb24iOiIweGRlYWQifX0="
      = some ⟨1, "exact", "monad-mainnet", ⟨"0xdead"⟩⟩
    ∧ (settlePOST ⟨Except.ok ⟨"0xFEED"⟩, Except.ok (some ⟨1, 77⟩)⟩
        ⟨1, "eyJ4NDAyVmVyc2lvbiI6MSwic2NoZW1lIjoiZXhhY3QiLCJuZXR3b3JrIjoibW9uYWQtbWFpbm5ldCIsInBheWxvYWQiOnsic2lnbmVkVHJhbnNhY3Rpb24iOiIweGRlYWQifX0=",
          ⟨"evm-transfer", "monad-testnet", "1000", "http://localhost/api",
            none, none, "0xAB", none⟩⟩).broadcastAttempted = true :=
  ⟨by decide,
    settle_skips_payload_mismatch_checks
      ⟨Except.ok ⟨"0xFEED"⟩, Except.ok (some ⟨1, 77⟩)⟩
      ⟨1, "eyJ4NDAyVmVyc2lvbiI6MSwic2NoZW1lIjoiZXhhY3QiLCJuZXR3b3JrIjoibW9uYWQtbWFpbm5ldCIsInBheWxvYWQiOnsic2lnbmVkVHJhbnNhY3Rpb24iOiIweGRlYWQifX0=",
        ⟨"evm-transfer", "monad-testnet", "1000", "http://localhost/api",
          none, none, "0xAB", none⟩⟩
      ⟨1, "exact", "monad-mainnet", ⟨"0xdead"⟩⟩
      rfl (by decide) rfl (by decide) (by decide) (by decide)
      (Or.inl (by decide))⟩

set_option maxRecDepth 100000 in
/-- C2: a settle request whose chain submission rejects with a
replay-protection marker ("SEQUENCE_NUMBER_TOO_OLD") in the fault message
is answered by the inner submission catch with a generic HTTP 500
carrying the raw message — not the HTTP 409 "Transaction already used"
conflict reply — even though the outer catch's own duplicate classifier
(`settleCatchReply`, which submission faults never reach) maps that very
message to the 409 conflict reply. -/
theorem settle_replay_inner_catch :
    settlePOST ⟨Except.error "SEQUENCE_NUMBER_TOO_OLD", Except.ok none⟩
        ⟨1, "eyJ4NDAyVmVyc2lvbiI6MSwic2NoZW1lIjoiZXZtLXRyYW5zZmVyIiwibmV0d29yayI6Im1vbmFkLXRlc3RuZXQiLCJwYXlsb2FkIjp7InNpZ25lZFRyYW5zYWN0aW9uIjoiMHhkZWFkIn19",
          ⟨"evm-transfer", "monad-testnet", "1000", "http://localhost/api",
            none, none, "0xAB", none⟩⟩
      = ⟨500, ⟨false, some "SEQUENCE_NUMBER_TOO_OLD", none, none⟩, true⟩
    ∧ isDuplicateTxError "SEQUENCE_NUMBER_TOO_OLD" = true
    ∧ settleCatchReply true "SEQUENCE_NUMBER_TOO_OLD"
        = ⟨409, ⟨false, some "Transaction already used", none, none⟩, true⟩ :=
  ⟨by decide, by decide, by decide⟩

/-- C6: when the settle request passes validation, the broadcast
succeeds, and the receipt wait fulfils with no receipt, settle reports a
failure whose `txHash` is still the submitted transaction's hash (and
whose `networkId` is the requirements' network), not null. -/
theorem settle_no_receipt_keeps_hash (chain : ChainBehaviour) (req : SettleReq)
    (pp : PaymentPayload) (txr : TxResp)
    (hver : req.x402Version = X402_VERSION)
    (hhdr : req.paymentHeader ≠ "")
    (hsch : req.paymentRequirements.scheme = MONAD_SCHEME)
    (hnz : req.paymentRequirements.network ≠ "")
    (hdec : decodeHeader req.paymentHeader = some pp)
    (hst : pp.payload.signedTransaction ≠ "")
    (hsub : chain.submit = Except.ok txr)
    (hwait : chain.waitFor = Except.ok none) :
    settlePOST chain req
      = ⟨200, ⟨false, some "Transaction receipt not found", some txr.hash,
          some req.paymentRequirements.network⟩, true⟩ := by
  rw [settlePOST_reaches_submit chain req pp hver hhdr hsch hnz hdec hst, hsub,
    hwait]

set_option maxRecDepth 100000 in
/-- Witness for C6: a concrete settle run whose receipt wait comes back
empty still reports the submitted hash. -/
theorem settle_no_receipt_keeps_hash_witness :
    decodeHeader "eyJ4NDAyVmVyc2lvbiI6MSwic2NoZW1lIjoiZXZtLXRyYW5zZmVyIiwibmV0d29yayI6Im1vbmFkLXRlc3RuZXQiLCJwYXlsb2FkIjp7InNpZ25lZFRyYW5zYWN0aW9uIjoiMHhkZWFkIn19"
      = some ⟨1, "evm-transfer", "monad-testnet", ⟨"0xdead"⟩⟩
    ∧ settlePOST ⟨Except.ok ⟨"0xFEED"⟩, Except.ok none⟩
        ⟨1, "eyJ4NDAyVmVyc2lvbiI6MSwic2NoZW1lIjoiZXZtLXRyYW5zZmVyIiwibmV0d29yayI6Im1vbmFkLXRlc3RuZXQiLCJwYXlsb2FkIjp7InNpZ25lZFRyYW5zYWN0aW9uIjoiMHhkZWFkIn19",
          ⟨"evm-transfer", "monad-testnet", "1000", "http://localhost/api",
            none, none, "0xAB", none⟩⟩
      = ⟨200, ⟨false, some "Transaction receipt not found", some "0xFEED",
          some "monad-testnet"⟩, true⟩ :=
  ⟨by decide,
    settle_no_receipt_keeps_hash ⟨Except.ok ⟨"0xFEED"⟩, Except.ok none⟩
      ⟨1, "eyJ4NDAyVmVyc2lvbiI6MSwic2NoZW1lIjoiZXZtLXRyYW5zZmVyIiwibmV0d29yayI6Im1vbmFkLXRlc3RuZXQiLCJwYXlsb2FkIjp7InNpZ25lZFRyYW5zYWN0aW9uIjoiMHhkZWFkIn19",
        ⟨"evm-transfer", "monad-testnet", "1000", "http://localhost/api",
          none, none, "0xAB", none⟩⟩
      ⟨1, "evm-transfer", "monad-testnet", ⟨"0xdead"⟩⟩ ⟨"0xFEED"⟩
      rfl (by decide) rfl (by decide) (by decide) (by decide) rfl rfl⟩

/-- Counterexample for C5: a protected route whose RouteConfig omits the
optional `network` field (allowed by the type) makes the middleware fault
on `routeConfig.network!` before it can build the 402, so a
payment-header-less request with a configured recipient gets no 402 at
all. -/
theorem middleware_missing_network_counterexample :
    lookupRoute [("/api/protected/weather",
        ⟨"1000000000000000", none, some "Weather", none, none⟩)]
      "/api/protected/weather"
      = some ⟨"1000000000000000", none, some "Weather", none, none⟩
    ∧ paymentMiddleware "0xRecipient"
        [("/api/protected/weather",
          ⟨"1000000000000000", none, some "Weather", none, none⟩)]
        (Except.ok ⟨true, none⟩)
        (Except.ok ⟨true, none, some "0xH", some "monad-testnet"⟩)
        ⟨"/api/protected/weather", "http://localhost/api/protected/weather",
          none⟩
      = MwOutcome.fault "TypeError: undefined routeNetwork has no startsWith"
    ∧ is402WithPrice
        (paymentMiddleware "0xRecipient"
          [("/api/protected/weather",
            ⟨"1000000000000000", none, some "Weather", none, none⟩)]
          (Except.ok ⟨true, none⟩)
          (Except.ok ⟨true, none, some "0xH", some "monad-testnet"⟩)
          ⟨"/api/protected/weather", "http://localhost/api/protected/weather",
            none⟩)
        "1000000000000000" = false :=
  ⟨by decide, by decide, by decide⟩

/-- C5 (amended): for every request to a configured route carrying no
X-PAYMENT header, with a recipient address configured and the route's
`network` field present (the middleware dereferences it unconditionally
before anything else), the middleware replies 402 whose body's
accepts[0].maxAmountRequired is exactly the route's configured price. -/
theorem middleware_402_price (recipient : String)
    (routes : List (String × RouteConfig))
    (fv : Except String VerifyResponse) (fs : Except String SettleResponse)
    (request : MwRequest) (rc : RouteConfig) (n : String)
    (hroute : lookupRoute routes request.pathname = some rc)
    (hnet : rc.network = some n)
    (hrec : recipient ≠ "")
    (hhdr : request.xPayment = none) :
    paymentMiddleware recipient routes fv fs request
      = MwOutcome.payment402 ⟨X402_VERSION,
          [⟨MONAD_SCHEME,
            (if n == "mainnet" then MONAD_MAINNET
             else if n == "testnet" then MONAD_TESTNET
             else if strStartsWith n "monad-" then n else "monad-" ++ n),
            rc.price, request.url, rc.description, rc.mimeType, recipient,
            rc.maxTimeoutSeconds⟩]⟩
    ∧ is402WithPrice (paymentMiddleware recipient routes fv fs request)
        rc.price = true := by
  have hrun : paymentMiddleware recipient routes fv fs request
      = MwOutcome.payment402 ⟨X402_VERSION,
          [⟨MONAD_SCHEME,
            (if n == "mainnet" then MONAD_MAINNET
             else if n == "testnet" then MONAD_TESTNET
             else if strStartsWith n "monad-" then n else "monad-" ++ n),
            rc.price, request.url, rc.description, rc.mimeType, recipient,
            rc.maxTimeoutSeconds⟩]⟩ := by
    unfold paymentMiddleware
    rw [hroute]
    simp only [hnet]
    rw [if_neg (by simp [hrec])]
    simp only [hhdr]
  refine ⟨hrun, ?_⟩
  rw [hrun]
  simp [is402WithPrice]

/-- Witness for the amended C5 at a concrete configured route. -/
theorem middleware_402_price_witness :
    lookupRoute [("/api/protected/weather",
        ⟨"1000000000000000", some "testnet", some "Weather", none, none⟩)]
      "/api/protected/weather"
      = some ⟨"1000000000000000", some "testnet", some "Weather", none, none⟩
    ∧ is402WithPrice
        (paymentMiddleware "0xRecipient"
          [("/api/protected/weather",
            ⟨"1000000000000000", some "testnet", some "Weather", none, none⟩)]
          (Except.ok ⟨true, none⟩)
          (Except.ok ⟨true, none, some "0xH", some "monad-testnet"⟩)
          ⟨"/api/protected/weather", "http://localhost/api/protected/weather",
            none⟩)
        "1000000000000000" = true :=
  ⟨by decide,
    (middleware_402_price "0xRecipient"
      [("/api/protected/weather",
        ⟨"1000000000000000", some "testnet", some "Weather", none, none⟩)]
      (Except.ok ⟨true, none⟩)
      (Except.ok ⟨true, none, some "0xH", some "monad-testnet"⟩)
      ⟨"/api/protected/weather", "http://localhost/api/protected/weather", none⟩
      ⟨"1000000000000000", some "testnet", some "Weather", none, none⟩
      "testnet" (by decide) rfl (by decide) rfl).2⟩

/-- C8: every User-Agent containing "bot", "crawler" or "spider" in any
letter case (a case-insensitive substring, as the source's `/bot/i`,
`/crawler/i`, `/spider/i` patterns test) is classified as a bot by
`isBot`, with or without the optional request argument. -/
theorem isBot_of_generic_token (ua : String) (request : Option ReqHeaders)
    (h : containsCI ua "bot" = true ∨ containsCI ua "crawler" = true
      ∨ containsCI ua "spider" = true) :
    isBot ua request = true := by
  have hm : BOT_PATTERNS.any (fun p => containsCI ua p) = true := by
    rcases h with h | h | h
    · exact List.any_eq_true.2 ⟨"bot", by decide, h⟩
    · exact List.any_eq_true.2 ⟨"crawler", by decide, h⟩
    · exact List.any_eq_true.2 ⟨"spider", by decide, h⟩
  simp [isBot, hm]

/-- Witness for C8 at the concrete User-Agent "X-Spider/1.0". -/
theorem isBot_of_generic_token_witness :
    (containsCI "X-Spider/1.0" "bot" = true ∨ containsCI "X-Spider/1.0" "crawler" = true
      ∨ containsCI "X-Spider/1.0" "spider" = true)
    ∧ isBot "X-Spider/1.0" none = true :=
  ⟨Or.inr (Or.inr (by decide)),
    isBot_of_generic_token "X-Spider/1.0" none (Or.inr (Or.inr (by decide)))⟩

/-- C9: an empty (missing) User-Agent is classified as a bot by `isBot`
for every choice of the optional request argument (fail-closed), while
`isAICrawler` classifies it as not an AI crawler. -/
theorem isBot_empty_and_isAICrawler_empty :
    (∀ request : Option ReqHeaders, isBot "" request = true)
    ∧ isAICrawler "" = false :=
  ⟨fun _ => by simp [isBot], by simp [isAICrawler]⟩

/-- C10: supplying the optional request argument is monotone — a
User-Agent that `isBot` flags without headers is still flagged with any
headers, because both the empty-UA branch and the pattern branch return
before the behavioural heuristics run, and the heuristics only ever add
`true` verdicts. -/
theorem isBot_request_monotone (ua : String) (r : ReqHeaders)
    (h : isBot ua none = true) : isBot ua (some r) = true := by
  cases he : ua == "" with
  | true => simp [isBot, he]
  | false =>
    cases hm : BOT_PATTERNS.any (fun p => containsCI ua p) with
    | true => simp [isBot, he, hm]
    | false => simp [isBot, he, hm] at h

/-- Witness for C10 at the concrete User-Agent "curl/7.68.0" and a
headerless request. -/
theorem isBot_request_monotone_witness :
    isBot "curl/7.68.0" none = true
    ∧ isBot "curl/7.68.0" (some ⟨none, none, none, none⟩) = true :=
  ⟨by decide, isBot_request_monotone "curl/7.68.0" ⟨none, none, none, none⟩ (by decide)⟩

end X402
